import Mathlib

/-!
Shallow embedding of `navi` (src/src/main.rs): a netlink event listener
that subscribes to rtnetlink broadcast groups, classifies each incoming
netlink envelope, and for link created/set/deleted messages extracts the
interface name attribute and sends one outbound event (title + text) to a
metrics client.  Side effects (console log lines and outbound event sends)
are modelled as explicit traces; the fallibility of the outbound send is
modelled by an oracle giving the outcome of each send in order, since a
failed send panics the process (`.expect("failed")`).
-/

namespace Navi

/-- Embedding of `netlink_packet::ErrorMessage` (only carried, never
inspected by navi beyond Debug-printing). -/
structure ErrorMessage where
  code : Int := 0
deriving DecidableEq, Repr

/-- Link attributes (`rtnl::link::nlas::Nla`).  navi matches only
`Nla::IfName(name)` against a wildcard, so the remaining attribute kinds
are represented by a few concrete variants plus a catch-all carrying the
attribute kind tag and raw bytes. -/
inductive Nla where
  | ifName (name : String)
  | mtu (value : Nat)
  | address (bytes : List Nat)
  | operState (state : Nat)
  | otherNla (kind : Nat) (bytes : List Nat)
deriving DecidableEq, Repr

/-- Embedding of `rtnl::link::LinkHeader` (present in every
`LinkMessage`; never inspected by navi). -/
structure LinkHeader where
  interfaceFamily : Nat := 0
  index : Nat := 0
  linkLayerType : Nat := 0
  flags : Nat := 0
  changeMask : Nat := 0
deriving DecidableEq, Repr

/-- Embedding of `rtnl::link::LinkMessage`: a header and an ordered
attribute list. -/
structure LinkMessage where
  header : LinkHeader := {}
  nlas : List Nla := []
deriving DecidableEq, Repr

/-- Embedding of `rtnl::address::AddressMessage` (opaque to navi). -/
structure AddressMessage where
  payload : List Nat := []
deriving DecidableEq, Repr

/-- Embedding of `rtnl::neighbour::NeighbourMessage` (opaque to navi). -/
structure NeighbourMessage where
  payload : List Nat := []
deriving DecidableEq, Repr

/-- Embedding of `rtnl::neighbour_table` messages (opaque to navi,
handled only by the wildcard arm). -/
structure NeighbourTableMessage where
  payload : List Nat := []
deriving DecidableEq, Repr

/-- Embedding of `rtnl::rule::RuleMessage` (opaque to navi). -/
structure RuleMessage where
  payload : List Nat := []
deriving DecidableEq, Repr

/-- Embedding of `rtnl::route::RouteMessage` (opaque to navi). -/
structure RouteMessage where
  payload : List Nat := []
deriving DecidableEq, Repr

/-- Embedding of `rtnl::tc::TcMessage` (opaque to navi, handled only by
the wildcard arm). -/
structure TcMessage where
  payload : List Nat := []
deriving DecidableEq, Repr

/-- Embedding of `rtnl::nsid::NsidMessage` (opaque to navi, handled only
by the wildcard arm). -/
structure NsidMessage where
  payload : List Nat := []
deriving DecidableEq, Repr

/-- Embedding of `RtnlMessage`: the inner protocol message, a tagged
variant over the rtnetlink operation families.  The sixteen kinds with
explicit arms in navi's `handle_message` appear first; the remaining
kinds (neighbour-table, queue-discipline/traffic-control, namespace-ID),
which navi's `_` wildcard arm covers, follow. -/
inductive RtnlMessage where
  | NewLink (lm : LinkMessage)
  | DelLink (lm : LinkMessage)
  | SetLink (lm : LinkMessage)
  | GetLink (lm : LinkMessage)
  | NewAddress (am : AddressMessage)
  | DelAddress (am : AddressMessage)
  | GetAddress (am : AddressMessage)
  | NewNeighbour (nm : NeighbourMessage)
  | GetNeighbour (nm : NeighbourMessage)
  | DelNeighbour (nm : NeighbourMessage)
  | NewRule (rm : RuleMessage)
  | DelRule (rm : RuleMessage)
  | GetRule (rm : RuleMessage)
  | NewRoute (rm : RouteMessage)
  | DelRoute (rm : RouteMessage)
  | GetRoute (rm : RouteMessage)
  | NewNeighbourTable (nm : NeighbourTableMessage)
  | GetNeighbourTable (nm : NeighbourTableMessage)
  | SetNeighbourTable (nm : NeighbourTableMessage)
  | NewQueueDiscipline (tm : TcMessage)
  | DelQueueDiscipline (tm : TcMessage)
  | GetQueueDiscipline (tm : TcMessage)
  | NewNsId (nm : NsidMessage)
  | DelNsId (nm : NsidMessage)
  | GetNsId (nm : NsidMessage)
deriving DecidableEq, Repr

/-- Embedding of `NetlinkPayload<RtnlMessage>`: the tagged payload of one
decoded netlink envelope. -/
inductive NetlinkPayload where
  | Done
  | Error (em : ErrorMessage)
  | Ack (am : ErrorMessage)
  | Noop
  | Overrun (bytes : List Nat)
  | InnerMessage (m : RtnlMessage)
deriving DecidableEq, Repr

/-- Embedding of `NetlinkHeader` (never inspected by navi: the loop
destructures `message.payload` only). -/
structure NetlinkHeader where
  length : Nat := 0
  messageType : Nat := 0
  flags : Nat := 0
  sequenceNumber : Nat := 0
  portNumber : Nat := 0
deriving DecidableEq, Repr

/-- Embedding of `NetlinkMessage<RtnlMessage>`: one envelope off the
channel. -/
structure NetlinkMessage where
  header : NetlinkHeader := {}
  payload : NetlinkPayload
deriving DecidableEq, Repr

/-- Outbound event handed to the metrics client: `zoomies::Event` as navi
builds it, `Event::new().title(t).text(s).build()`. -/
structure Event where
  title : String
  text : String
deriving DecidableEq, Repr

/-- One console log line.  Each constructor corresponds to exactly one
`println!`/`eprintln!` site in main.rs, carrying the data interpolated
there. -/
inductive LogLine where
  | done
  | errorPayload (em : ErrorMessage)
  | unhandled (m : RtnlMessage)
  | interfaceDeleted
  | deletedName (name : String)
  | interfaceUp (name : String)
  | setName (name : String)
deriving DecidableEq, Repr

/-- Loop of `find_ifname`: `for nla in lm.nlas { match nla { IfName(name)
=> return Some(name), _ => continue } }; None`. -/
def find_ifname_go : List Nla → Option String
  | [] => none
  | Nla.ifName name :: _ => some name
  | _ :: rest => find_ifname_go rest

/-- Embedding of `find_ifname(lm: LinkMessage) -> Option<String>`. -/
def find_ifname (lm : LinkMessage) : Option String :=
  find_ifname_go lm.nlas

/-- Projection of a single attribute to an interface name: `some` exactly
on `Nla::IfName`.  Used to state which attributes are name attributes. -/
def nlaName : Nla → Option String
  | Nla.ifName name => some name
  | _ => none

/-- Embedding of `on_link_deleted`: the log lines it prints, in order,
and the event it sends (if any).  The `println!("Interface Deleted")`
happens before the name check; the send happens after all prints. -/
def on_link_deleted (lm : LinkMessage) : List LogLine × Option Event :=
  match find_ifname lm with
  | some name =>
      ([LogLine.interfaceDeleted, LogLine.deletedName name],
       some ⟨"Interface Deleted", name⟩)
  | none => ([LogLine.interfaceDeleted], none)

/-- Embedding of `on_link_created`: prints and sends only when a name
attribute is present. -/
def on_link_created (lm : LinkMessage) : List LogLine × Option Event :=
  match find_ifname lm with
  | some name =>
      ([LogLine.interfaceUp name], some ⟨"Interface Created", name⟩)
  | none => ([], none)

/-- Embedding of `on_link_set`: prints and sends only when a name
attribute is present. -/
def on_link_set (lm : LinkMessage) : List LogLine × Option Event :=
  match find_ifname lm with
  | some name =>
      ([LogLine.setName name], some ⟨"Interface Set", name⟩)
  | none => ([], none)

/-- Embedding of `handle_message`: routes an inner protocol message by
kind.  Link new/delete/set dispatch to the three handlers; the other
explicitly matched kinds do nothing; the wildcard arm prints an
"Unhandled Message" line. -/
def handle_message : RtnlMessage → List LogLine × Option Event
  | RtnlMessage.NewLink lm => on_link_created lm
  | RtnlMessage.DelLink lm => on_link_deleted lm
  | RtnlMessage.SetLink lm => on_link_set lm
  | RtnlMessage.GetLink _ => ([], none)
  | RtnlMessage.NewAddress _ => ([], none)
  | RtnlMessage.DelAddress _ => ([], none)
  | RtnlMessage.GetAddress _ => ([], none)
  | RtnlMessage.NewNeighbour _ => ([], none)
  | RtnlMessage.GetNeighbour _ => ([], none)
  | RtnlMessage.DelNeighbour _ => ([], none)
  | RtnlMessage.NewRule _ => ([], none)
  | RtnlMessage.DelRule _ => ([], none)
  | RtnlMessage.GetRule _ => ([], none)
  | RtnlMessage.NewRoute _ => ([], none)
  | RtnlMessage.DelRoute _ => ([], none)
  | RtnlMessage.GetRoute _ => ([], none)
  | m => ([LogLine.unhandled m], none)

/-- Classification arm of the dispatch loop in `main`: the `match
message.payload` over the six envelope variants.  Done and Error print a
line; Ack, Noop and Overrun do nothing; InnerMessage sub-dispatches to
`handle_message`. -/
def handle_payload : NetlinkPayload → List LogLine × Option Event
  | NetlinkPayload.Done => ([LogLine.done], none)
  | NetlinkPayload.Error em => ([LogLine.errorPayload em], none)
  | NetlinkPayload.Ack _ => ([], none)
  | NetlinkPayload.Noop => ([], none)
  | NetlinkPayload.Overrun _ => ([], none)
  | NetlinkPayload.InnerMessage m => handle_message m

/-- Observable outcome of a run of the dispatch loop: the console log
lines in order, the notify calls (events handed to `dd.send`) in order,
and whether the process crashed (a send failed and the `.expect("failed")`
panicked). -/
structure RunResult where
  logs : List LogLine
  notifyCalls : List Event
  crashed : Bool
deriving DecidableEq, Repr

/-- Embedding of the dispatch loop `while let Some((message, _)) =
messages.next().await`: envelopes are consumed strictly one at a time in
arrival order.  `sendOk k` is the outcome of the k-th send overall; a
failed send panics immediately, so the crashed run keeps the log lines
printed so far and processes no further envelope. -/
def runLoop (sendOk : Nat → Bool) : List NetlinkMessage → Nat → RunResult
  | [], _ => ⟨[], [], false⟩
  | msg :: rest, k =>
      match (handle_payload msg.payload).2 with
      | none =>
          let r := runLoop sendOk rest k
          ⟨(handle_payload msg.payload).1 ++ r.logs, r.notifyCalls, r.crashed⟩
      | some ev =>
          if sendOk k then
            let r := runLoop sendOk rest (k + 1)
            ⟨(handle_payload msg.payload).1 ++ r.logs, ev :: r.notifyCalls,
             r.crashed⟩
          else
            ⟨(handle_payload msg.payload).1, [ev], true⟩

/-- The whole observable behaviour of navi's `main` after bind, on a
given arrival sequence of envelopes and a given send-outcome oracle. -/
def navi_main (sendOk : Nat → Bool) (msgs : List NetlinkMessage) : RunResult :=
  runLoop sendOk msgs 0

/-- True exactly on the three link-change kinds navi notifies about. -/
def isLinkChange : RtnlMessage → Bool
  | RtnlMessage.NewLink _ => true
  | RtnlMessage.DelLink _ => true
  | RtnlMessage.SetLink _ => true
  | _ => false

/-- True exactly on the five control payload variants (everything except
`InnerMessage`): Done, Error, Ack, Noop, Overrun. -/
def isControl : NetlinkPayload → Bool
  | NetlinkPayload.InnerMessage _ => false
  | _ => true

/-- Broadcast group identifiers from `netlink_sys::constants` (the
kernel's `enum rtnetlink_groups`). -/
def RTNLGRP_LINK : Nat := 1

/-- Neighbour-table changes group. -/
def RTNLGRP_NEIGH : Nat := 3

/-- IPv4 address changes group. -/
def RTNLGRP_IPV4_IFADDR : Nat := 5

/-- IPv4 multicast-route changes group. -/
def RTNLGRP_IPV4_MROUTE : Nat := 6

/-- IPv4 route changes group. -/
def RTNLGRP_IPV4_ROUTE : Nat := 7

/-- IPv4 rule changes group. -/
def RTNLGRP_IPV4_RULE : Nat := 8

/-- IPv6 address changes group. -/
def RTNLGRP_IPV6_IFADDR : Nat := 9

/-- IPv6 multicast-route changes group. -/
def RTNLGRP_IPV6_MROUTE : Nat := 10

/-- IPv6 route changes group. -/
def RTNLGRP_IPV6_ROUTE : Nat := 11

/-- IPv6 rule changes group. -/
def RTNLGRP_IPV6_RULE : Nat := 19

/-- IPv4 netconf changes group. -/
def RTNLGRP_IPV4_NETCONF : Nat := 24

/-- IPv6 netconf changes group. -/
def RTNLGRP_IPV6_NETCONF : Nat := 25

/-- MPLS route changes group. -/
def RTNLGRP_MPLS_ROUTE : Nat := 27

/-- Namespace-ID changes group. -/
def RTNLGRP_NSID : Nat := 28

/-- MPLS netconf changes group. -/
def RTNLGRP_MPLS_NETCONF : Nat := 29

/-- Embedding of the `groups` mask in `main`: the bitwise-OR written in
the source, in source order.  It is a plain constant, computed once
before the bind and never reassigned (Rust `let` binding, not `let mut`). -/
def groups : Nat :=
  Nat.lor RTNLGRP_LINK
    (Nat.lor RTNLGRP_IPV4_IFADDR
      (Nat.lor RTNLGRP_IPV6_IFADDR
        (Nat.lor RTNLGRP_IPV4_ROUTE
          (Nat.lor RTNLGRP_IPV6_ROUTE
            (Nat.lor RTNLGRP_MPLS_ROUTE
              (Nat.lor RTNLGRP_IPV4_MROUTE
                (Nat.lor RTNLGRP_IPV6_MROUTE
                  (Nat.lor RTNLGRP_NEIGH
                    (Nat.lor RTNLGRP_IPV4_NETCONF
                      (Nat.lor RTNLGRP_IPV6_NETCONF
                        (Nat.lor RTNLGRP_IPV4_RULE
                          (Nat.lor RTNLGRP_IPV6_RULE
                            (Nat.lor RTNLGRP_NSID
                              RTNLGRP_MPLS_NETCONF)))))))))))))

/-! Helper lemmas shared by the claim theorems. -/

/-- The scanning loop of `find_ifname` returns exactly the head of the
list of interface-name values, in list order. -/
theorem find_ifname_go_eq_head (nlas : List Nla) :
    find_ifname_go nlas = (nlas.filterMap nlaName).head? := by
  induction nlas with
  | nil => rfl
  | cons a rest ih =>
    cases a <;> simp [find_ifname_go, nlaName, List.filterMap_cons, ih]

/-- Characterisation of `find_ifname` in terms of the attribute list. -/
theorem find_ifname_eq_head (lm : LinkMessage) :
    find_ifname lm = (lm.nlas.filterMap nlaName).head? :=
  find_ifname_go_eq_head lm.nlas

/-- A link message none of whose attributes is a name attribute yields no
name. -/
theorem find_ifname_eq_none (lm : LinkMessage)
    (h : ∀ a ∈ lm.nlas, nlaName a = none) : find_ifname lm = none := by
  rw [find_ifname_eq_head, List.filterMap_eq_nil_iff.mpr h]
  rfl

/-- Unfolding of `runLoop` on an envelope that produces no event. -/
theorem runLoop_cons_none (sendOk : Nat → Bool) (msg : NetlinkMessage)
    (rest : List NetlinkMessage) (k : Nat)
    (h : (handle_payload msg.payload).2 = none) :
    runLoop sendOk (msg :: rest) k =
      ⟨(handle_payload msg.payload).1 ++ (runLoop sendOk rest k).logs,
       (runLoop sendOk rest k).notifyCalls,
       (runLoop sendOk rest k).crashed⟩ := by
  simp only [runLoop, h]

/-- Unfolding of `runLoop` on an envelope whose event send succeeds. -/
theorem runLoop_cons_some_ok (sendOk : Nat → Bool) (msg : NetlinkMessage)
    (rest : List NetlinkMessage) (k : Nat) (ev : Event)
    (h : (handle_payload msg.payload).2 = some ev) (hok : sendOk k = true) :
    runLoop sendOk (msg :: rest) k =
      ⟨(handle_payload msg.payload).1 ++ (runLoop sendOk rest (k + 1)).logs,
       ev :: (runLoop sendOk rest (k + 1)).notifyCalls,
       (runLoop sendOk rest (k + 1)).crashed⟩ := by
  simp only [runLoop, h, hok, if_true]

/-- Unfolding of `runLoop` on an envelope whose event send fails: the
loop crashes and the tail is not processed. -/
theorem runLoop_cons_some_fail (sendOk : Nat → Bool) (msg : NetlinkMessage)
    (rest : List NetlinkMessage) (k : Nat) (ev : Event)
    (h : (handle_payload msg.payload).2 = some ev) (hko : sendOk k = false) :
    runLoop sendOk (msg :: rest) k =
      ⟨(handle_payload msg.payload).1, [ev], true⟩ := by
  simp only [runLoop, h, hko, if_false, Bool.false_eq_true]

/-- A control payload (anything but `InnerMessage`) produces no event. -/
theorem handle_payload_control_no_event (p : NetlinkPayload)
    (h : isControl p = true) : (handle_payload p).2 = none := by
  cases p <;> simp_all [isControl, handle_payload]

/-- When every send succeeds, the loop never crashes. -/
theorem runLoop_no_crash (sendOk : Nat → Bool)
    (hok : ∀ k, sendOk k = true) (msgs : List NetlinkMessage) (k : Nat) :
    (runLoop sendOk msgs k).crashed = false := by
  induction msgs generalizing k with
  | nil => rfl
  | cons msg rest ih =>
    cases h : (handle_payload msg.payload).2 with
    | none => rw [runLoop_cons_none sendOk msg rest k h]; exact ih k
    | some ev =>
      rw [runLoop_cons_some_ok sendOk msg rest k ev h (hok k)]
      exact ih (k + 1)

/-- A stream with no inner messages produces no notify call and never
crashes, whatever the send oracle. -/
theorem runLoop_all_control (sendOk : Nat → Bool)
    (msgs : List NetlinkMessage)
    (h : ∀ msg ∈ msgs, isControl msg.payload = true) (k : Nat) :
    (runLoop sendOk msgs k).notifyCalls = [] ∧
    (runLoop sendOk msgs k).crashed = false := by
  induction msgs generalizing k with
  | nil => exact ⟨rfl, rfl⟩
  | cons msg rest ih =>
    have hc : (handle_payload msg.payload).2 = none :=
      handle_payload_control_no_event msg.payload
        (h msg (List.mem_cons_self msg rest))
    rw [runLoop_cons_none sendOk msg rest k hc]
    exact ih (fun m hm => h m (List.mem_cons_of_mem msg hm)) k

/-! Claim theorems. -/

/-- C1: for an inner protocol message of kind link-created, link-set or
link-deleted carrying an interface-name attribute (`name` being the first
such attribute's value), the dispatch produces exactly one outbound
event, titled "Interface Created" / "Interface Set" / "Interface Deleted"
respectively, with text equal to that interface name. -/
theorem claim1_link_event_titles (lm : LinkMessage) (name : String)
    (sendOk : Nat → Bool) (h : find_ifname lm = some name)
    (hok : sendOk 0 = true) :
    (navi_main sendOk
        [{ payload := NetlinkPayload.InnerMessage
            (RtnlMessage.NewLink lm) }]).notifyCalls =
      [⟨"Interface Created", name⟩] ∧
    (navi_main sendOk
        [{ payload := NetlinkPayload.InnerMessage
            (RtnlMessage.SetLink lm) }]).notifyCalls =
      [⟨"Interface Set", name⟩] ∧
    (navi_main sendOk
        [{ payload := NetlinkPayload.InnerMessage
            (RtnlMessage.DelLink lm) }]).notifyCalls =
      [⟨"Interface Deleted", name⟩] := by
  refine ⟨?_, ?_, ?_⟩ <;>
    simp [navi_main, runLoop, handle_payload, handle_message,
      on_link_created, on_link_set, on_link_deleted, h, hok]

/-- C1 witness at a concrete link-created message carrying
`IfName("eth0")`. -/
theorem claim1_witness :
    (navi_main (fun _ => true)
        [{ payload := NetlinkPayload.InnerMessage
            (RtnlMessage.NewLink { nlas := [Nla.ifName "eth0"] }) }]).notifyCalls =
      [⟨"Interface Created", "eth0"⟩] :=
  (claim1_link_event_titles { nlas := [Nla.ifName "eth0"] } "eth0"
    (fun _ => true) rfl rfl).1

/-- C2: a link message (created, set or deleted) whose attribute list
contains no interface-name attribute produces zero outbound events and no
crash; created and set produce no output at all, deleted only its
unconditional console line. -/
theorem claim2_nameless_link_skipped (lm : LinkMessage) (sendOk : Nat → Bool)
    (h : ∀ a ∈ lm.nlas, nlaName a = none) :
    navi_main sendOk
        [{ payload := NetlinkPayload.InnerMessage (RtnlMessage.NewLink lm) }] =
      ⟨[], [], false⟩ ∧
    navi_main sendOk
        [{ payload := NetlinkPayload.InnerMessage (RtnlMessage.SetLink lm) }] =
      ⟨[], [], false⟩ ∧
    navi_main sendOk
        [{ payload := NetlinkPayload.InnerMessage (RtnlMessage.DelLink lm) }] =
      ⟨[LogLine.interfaceDeleted], [], false⟩ := by
  have hf := find_ifname_eq_none lm h
  refine ⟨?_, ?_, ?_⟩ <;>
    simp [navi_main, runLoop, handle_payload, handle_message,
      on_link_created, on_link_set, on_link_deleted, hf]

/-- C2 witness at a concrete name-less link-created message. -/
theorem claim2_witness :
    navi_main (fun _ => true)
        [{ payload := NetlinkPayload.InnerMessage
            (RtnlMessage.NewLink { nlas := [Nla.mtu 1500] }) }] =
      ⟨[], [], false⟩ :=
  (claim2_nameless_link_skipped { nlas := [Nla.mtu 1500] } (fun _ => true)
    (by decide)).1

/-- C3: an inner protocol message whose kind is not link-created,
link-set or link-deleted produces zero outbound events, regardless of its
attributes, and the loop does not crash on it. -/
theorem claim3_nonlink_no_events (m : RtnlMessage) (sendOk : Nat → Bool)
    (h : isLinkChange m = false) :
    (handle_message m).2 = none ∧
    (navi_main sendOk
        [{ payload := NetlinkPayload.InnerMessage m }]).notifyCalls = [] ∧
    (navi_main sendOk
        [{ payload := NetlinkPayload.InnerMessage m }]).crashed = false := by
  have h2 : (handle_message m).2 = none := by
    cases m <;> simp_all [isLinkChange, handle_message]
  have hp : (handle_payload (NetlinkPayload.InnerMessage m)).2 = none := h2
  refine ⟨h2, ?_, ?_⟩ <;>
  · show _ = _
    simp only [navi_main]
    rw [runLoop_cons_none sendOk _ [] 0 hp]
    rfl

/-- C3 witness at a concrete address message. -/
theorem claim3_witness :
    (handle_message (RtnlMessage.NewAddress {})).2 = none ∧
    (navi_main (fun _ => true)
        [{ payload := NetlinkPayload.InnerMessage
            (RtnlMessage.NewAddress {}) }]).notifyCalls = [] ∧
    (navi_main (fun _ => true)
        [{ payload := NetlinkPayload.InnerMessage
            (RtnlMessage.NewAddress {}) }]).crashed = false :=
  claim3_nonlink_no_events (RtnlMessage.NewAddress {}) (fun _ => true) rfl

/-- C4: the extractor returns the value of the first interface-name
attribute in list order (none if absent), yields that name whenever the
attributes in front of it are all non-name attributes, and its result
depends only on the sequence of name attributes: inserting, removing or
reordering non-name attributes cannot change it. -/
theorem claim4_extractor_first_and_order_independent
    (lm lm2 : LinkMessage) (pre post : List Nla) (hdr : LinkHeader)
    (name : String) :
    find_ifname lm = (lm.nlas.filterMap nlaName).head? ∧
    ((∀ a ∈ pre, nlaName a = none) →
      find_ifname ⟨hdr, pre ++ Nla.ifName name :: post⟩ = some name) ∧
    (lm.nlas.filterMap nlaName = lm2.nlas.filterMap nlaName →
      find_ifname lm = find_ifname lm2) := by
  refine ⟨find_ifname_eq_head lm, ?_, ?_⟩
  · intro hp
    rw [find_ifname_eq_head]
    simp [List.filterMap_append, List.filterMap_eq_nil_iff.mpr hp,
      List.filterMap_cons, nlaName]
  · intro he
    rw [find_ifname_eq_head, find_ifname_eq_head, he]

/-- C4 witness: the first name is extracted past a leading MTU attribute,
and the result agrees with the name-only projection. -/
theorem claim4_witness :
    find_ifname { nlas := [Nla.mtu 9, Nla.ifName "wlan0"] } =
      (([Nla.mtu 9, Nla.ifName "wlan0"].filterMap nlaName).head?) ∧
    find_ifname ⟨{}, [Nla.mtu 9] ++ Nla.ifName "wlan0" :: []⟩ = some "wlan0" :=
  ⟨(claim4_extractor_first_and_order_independent
      { nlas := [Nla.mtu 9, Nla.ifName "wlan0"] }
      { nlas := [Nla.mtu 9, Nla.ifName "wlan0"] } [Nla.mtu 9] [] {} "wlan0").1,
   (claim4_extractor_first_and_order_independent
      { nlas := [Nla.mtu 9, Nla.ifName "wlan0"] }
      { nlas := [Nla.mtu 9, Nla.ifName "wlan0"] } [Nla.mtu 9] [] {}
      "wlan0").2.1 (by decide)⟩

/-- C5 counterexample: an Overrun envelope yields zero notify calls but
also ZERO log entries — the code's `Overrun(_bytes) => {}` arm prints
nothing — refuting the claimed one diagnostic log entry. -/
theorem claim5_overrun_counterexample :
    (navi_main (fun _ => true)
        [{ payload := NetlinkPayload.Overrun [] }]).notifyCalls = [] ∧
    (navi_main (fun _ => true)
        [{ payload := NetlinkPayload.Overrun [] }]).logs = [] ∧
    ¬ (navi_main (fun _ => true)
        [{ payload := NetlinkPayload.Overrun [] }]).logs.length = 1 := by
  refine ⟨rfl, rfl, by decide⟩

/-- C5 (amended): every control envelope — Done, Error, Ack, No-op,
Overrun — produces zero notify calls, never crashes, and the loop
continues with the remaining envelopes unchanged; Done and Error emit
exactly one diagnostic log line each, while Ack, No-op and Overrun emit
no log line at all. -/
theorem claim5_control_envelopes (p : NetlinkPayload) (hdr : NetlinkHeader)
    (sendOk : Nat → Bool) (rest : List NetlinkMessage) (k : Nat)
    (h : isControl p = true) :
    (handle_payload p).2 = none ∧
    runLoop sendOk (⟨hdr, p⟩ :: rest) k =
      ⟨(handle_payload p).1 ++ (runLoop sendOk rest k).logs,
       (runLoop sendOk rest k).notifyCalls,
       (runLoop sendOk rest k).crashed⟩ ∧
    ((p = NetlinkPayload.Done ∨ (∃ em, p = NetlinkPayload.Error em)) →
      (handle_payload p).1.length = 1) ∧
    ((p = NetlinkPayload.Noop ∨ (∃ em, p = NetlinkPayload.Ack em) ∨
        (∃ b, p = NetlinkPayload.Overrun b)) →
      (handle_payload p).1 = []) := by
  have h2 := handle_payload_control_no_event p h
  refine ⟨h2, runLoop_cons_none sendOk ⟨hdr, p⟩ rest k h2, ?_, ?_⟩
  · rintro (rfl | ⟨em, rfl⟩) <;> rfl
  · rintro (rfl | ⟨em, rfl⟩ | ⟨b, rfl⟩) <;> rfl

/-- C5 witness at a concrete Done envelope. -/
theorem claim5_witness :
    runLoop (fun _ => true) [⟨{}, NetlinkPayload.Done⟩] 0 =
      ⟨(handle_payload NetlinkPayload.Done).1 ++
        (runLoop (fun _ => true) [] 0).logs,
       (runLoop (fun _ => true) [] 0).notifyCalls,
       (runLoop (fun _ => true) [] 0).crashed⟩ :=
  (claim5_control_envelopes NetlinkPayload.Done {} (fun _ => true) [] 0
    rfl).2.1

/-- C6: the subscription group mask equals the bitwise-OR of the group
identifiers for link, IPv4/IPv6 address, IPv4/IPv6/MPLS route, IPv4/IPv6
multicast-route, neighbour-table, IPv4/IPv6 netconf, IPv4/IPv6 rule and
namespace-ID changes; its value is 31.  (The source additionally ORs in
`RTNLGRP_MPLS_NETCONF`, which does not change the value.)  `groups` is a
plain constant: it is computed once before the bind and never reassigned. -/
theorem claim6_groups_mask :
    groups =
      List.foldr Nat.lor 0
        [RTNLGRP_LINK, RTNLGRP_IPV4_IFADDR, RTNLGRP_IPV6_IFADDR,
         RTNLGRP_IPV4_ROUTE, RTNLGRP_IPV6_ROUTE, RTNLGRP_MPLS_ROUTE,
         RTNLGRP_IPV4_MROUTE, RTNLGRP_IPV6_MROUTE, RTNLGRP_NEIGH,
         RTNLGRP_IPV4_NETCONF, RTNLGRP_IPV6_NETCONF, RTNLGRP_IPV4_RULE,
         RTNLGRP_IPV6_RULE, RTNLGRP_NSID] ∧
    groups = 31 := by
  constructor <;> decide

/-- C7: when the outbound send of a notify call fails, the process
aborts: whatever envelope produced the event (first conjunct, covering
every send site), the run result records the crash, contains only what
happened up to and including the failed send, and is independent of the
remaining envelopes — no further envelope is processed.  The second
conjunct instantiates this at the three concrete send sites: the
Interface Created, Interface Set and Interface Deleted notify calls. -/
theorem claim7_send_failure_fatal (sendOk : Nat → Bool) (k : Nat)
    (rest : List NetlinkMessage) (msg : NetlinkMessage) (ev : Event)
    (lm : LinkMessage) (name : String) (hko : sendOk k = false) :
    ((handle_payload msg.payload).2 = some ev →
      runLoop sendOk (msg :: rest) k =
        ⟨(handle_payload msg.payload).1, [ev], true⟩) ∧
    (find_ifname lm = some name →
      runLoop sendOk
          ({ payload := NetlinkPayload.InnerMessage (RtnlMessage.NewLink lm) }
            :: rest) k =
        ⟨[LogLine.interfaceUp name], [⟨"Interface Created", name⟩], true⟩ ∧
      runLoop sendOk
          ({ payload := NetlinkPayload.InnerMessage (RtnlMessage.SetLink lm) }
            :: rest) k =
        ⟨[LogLine.setName name], [⟨"Interface Set", name⟩], true⟩ ∧
      runLoop sendOk
          ({ payload := NetlinkPayload.InnerMessage (RtnlMessage.DelLink lm) }
            :: rest) k =
        ⟨[LogLine.interfaceDeleted, LogLine.deletedName name],
         [⟨"Interface Deleted", name⟩], true⟩) := by
  constructor
  · intro hp
    rw [runLoop_cons_some_fail sendOk msg rest k ev hp hko]
  · intro h
    have hn : (handle_payload
        (NetlinkPayload.InnerMessage (RtnlMessage.NewLink lm))).2 =
        some ⟨"Interface Created", name⟩ := by
      simp [handle_payload, handle_message, on_link_created, h]
    have hs : (handle_payload
        (NetlinkPayload.InnerMessage (RtnlMessage.SetLink lm))).2 =
        some ⟨"Interface Set", name⟩ := by
      simp [handle_payload, handle_message, on_link_set, h]
    have hd : (handle_payload
        (NetlinkPayload.InnerMessage (RtnlMessage.DelLink lm))).2 =
        some ⟨"Interface Deleted", name⟩ := by
      simp [handle_payload, handle_message, on_link_deleted, h]
    refine ⟨?_, ?_, ?_⟩
    · rw [runLoop_cons_some_fail sendOk _ rest k _ hn hko]
      simp [handle_payload, handle_message, on_link_created, h]
    · rw [runLoop_cons_some_fail sendOk _ rest k _ hs hko]
      simp [handle_payload, handle_message, on_link_set, h]
    · rw [runLoop_cons_some_fail sendOk _ rest k _ hd hko]
      simp [handle_payload, handle_message, on_link_deleted, h]

/-- C7 witness: with a failing sink, each of the three link-event send
sites crashes the run and the trailing Done envelope is never processed. -/
theorem claim7_witness :
    runLoop (fun _ => false)
        [{ payload := NetlinkPayload.InnerMessage
            (RtnlMessage.NewLink { nlas := [Nla.ifName "eth1"] }) },
         { payload := NetlinkPayload.Done }] 0 =
      ⟨[LogLine.interfaceUp "eth1"], [⟨"Interface Created", "eth1"⟩], true⟩ ∧
    runLoop (fun _ => false)
        [{ payload := NetlinkPayload.InnerMessage
            (RtnlMessage.SetLink { nlas := [Nla.ifName "eth1"] }) },
         { payload := NetlinkPayload.Done }] 0 =
      ⟨[LogLine.setName "eth1"], [⟨"Interface Set", "eth1"⟩], true⟩ ∧
    runLoop (fun _ => false)
        [{ payload := NetlinkPayload.InnerMessage
            (RtnlMessage.DelLink { nlas := [Nla.ifName "eth1"] }) },
         { payload := NetlinkPayload.Done }] 0 =
      ⟨[LogLine.interfaceDeleted, LogLine.deletedName "eth1"],
       [⟨"Interface Deleted", "eth1"⟩], true⟩ :=
  (claim7_send_failure_fatal (fun _ => false) 0
    [{ payload := NetlinkPayload.Done }]
    { payload := NetlinkPayload.Done } ⟨"", ""⟩
    { nlas := [Nla.ifName "eth1"] } "eth1" rfl).2 rfl

/-- C8: injecting link-created "eth0", link-set "eth0", link-deleted
"eth0" in sequence produces exactly three notify calls, in arrival order,
titled "Interface Created", "Interface Set", "Interface Deleted". -/
theorem claim8_sequence_in_order :
    (navi_main (fun _ => true)
        [{ payload := NetlinkPayload.InnerMessage
            (RtnlMessage.NewLink { nlas := [Nla.ifName "eth0"] }) },
         { payload := NetlinkPayload.InnerMessage
            (RtnlMessage.SetLink { nlas := [Nla.ifName "eth0"] }) },
         { payload := NetlinkPayload.InnerMessage
            (RtnlMessage.DelLink { nlas := [Nla.ifName "eth0"] }) }]).notifyCalls =
      [⟨"Interface Created", "eth0"⟩, ⟨"Interface Set", "eth0"⟩,
       ⟨"Interface Deleted", "eth0"⟩] := by
  rfl

/-- C9: classification is total — `handle_payload` covers all six
envelope variants.  When every send succeeds the loop never crashes on
any envelope sequence, and a sequence containing no inner message is
handled without crashing and without notify calls whatever the send
oracle does. -/
theorem claim9_classification_total (sendOk : Nat → Bool)
    (msgs : List NetlinkMessage) :
    ((∀ k, sendOk k = true) → (navi_main sendOk msgs).crashed = false) ∧
    ((∀ msg ∈ msgs, isControl msg.payload = true) →
      (navi_main sendOk msgs).crashed = false ∧
      (navi_main sendOk msgs).notifyCalls = []) := by
  constructor
  · intro hok
    exact runLoop_no_crash sendOk hok msgs 0
  · intro hc
    exact ⟨(runLoop_all_control sendOk msgs hc 0).2,
      (runLoop_all_control sendOk msgs hc 0).1⟩

/-- C9 witness at a concrete one-envelope stream. -/
theorem claim9_witness :
    (navi_main (fun _ => true)
        [{ payload := NetlinkPayload.Done }]).crashed = false :=
  (claim9_classification_total (fun _ => true)
    [{ payload := NetlinkPayload.Done }]).1 (fun _ => rfl)

/-- C10: `on_link_deleted` prints its "Interface Deleted" console line
first and unconditionally — before the name check — while a name-less
link-created or link-set message produces no output at all and a
name-less deletion produces exactly that one line. -/
theorem claim10_delete_log_unconditional (lm : LinkMessage) :
    (on_link_deleted lm).1.head? = some LogLine.interfaceDeleted ∧
    (find_ifname lm = none →
      on_link_created lm = ([], none) ∧ on_link_set lm = ([], none) ∧
      on_link_deleted lm = ([LogLine.interfaceDeleted], none)) := by
  constructor
  · cases h : find_ifname lm <;> simp [on_link_deleted, h]
  · intro h
    simp [on_link_created, on_link_set, on_link_deleted, h]

/-- C10 witness at a concrete name-less link message. -/
theorem claim10_witness :
    (on_link_deleted { nlas := [Nla.mtu 1500] }).1.head? =
      some LogLine.interfaceDeleted ∧
    on_link_created { nlas := [Nla.mtu 1500] } = ([], none) :=
  ⟨(claim10_delete_log_unconditional { nlas := [Nla.mtu 1500] }).1,
   ((claim10_delete_log_unconditional { nlas := [Nla.mtu 1500] }).2 rfl).1⟩

end Navi
